import Mathlib

/-!
Shallow embedding of `src/audio_conv_rnn.py` (the AudioConvRNN model builder
for Keras) and proofs about its behaviour.

The Python file has a single entry point, `AudioConvRNN(weights, input_tensor)`.
It reads two pieces of process-wide Keras configuration: the image dimension
ordering (the string returned by `K.image_dim_ordering()`, normally `"th"` or
`"tf"`) and the active backend (`K._BACKEND`, `"theano"` or `"tensorflow"`).
We bundle those into `KerasConfig`.

The function either raises (ValueError for a bad `weights` argument,
RuntimeError for pretrained weights under the wrong dim ordering) or returns a
Keras model, possibly after downloading and loading a weights file via
`get_file`.  We embed this outcome as the inductive `BuildResult`: the
`loadedModel` constructor records that `get_file` was invoked, with the cached
filename, the URL and the cache subdirectory it was called with, followed by
`model.load_weights` on the downloaded file.

One line of the source needs care: line 122 reads
`if K.image_dim_ordering == 'tf':` — it compares the attribute
`K.image_dim_ordering`, which is a function object, against the string
`'tf'`, instead of calling it.  In Python a function object never compares
equal to a string, so the test is constantly false.  We embed the comparison
faithfully with a tiny model of the Python values involved (`PyVal`, `pyEq`)
rather than hard-coding the branch away.
-/

/-- URL for the Theano-backend weights file (source line 16). -/
def TH_WEIGHTS_PATH : String :=
  "https://github.com/keunwoochoi/music-auto_tagging-keras/blob/master/data/rnn_weights_theano.hdf5"

/-- URL for the TensorFlow-backend weights file (source line 17). -/
def TF_WEIGHTS_PATH : String :=
  "https://github.com/keunwoochoi/music-auto_tagging-keras/blob/master/data/rnn_weights_tensorflow.hdf5"

/-- The process-wide Keras configuration the builder reads but never writes:
the value returned by the call `K.image_dim_ordering()` and the value of
`K._BACKEND`. -/
structure KerasConfig where
  image_dim_ordering : String
  backend : String
deriving DecidableEq

/-- A layer call as it appears in the source, recording exactly the arguments
the source passes.  Dropout rates are embedded as exact rationals (the source
literals 0.5 and 0.3 are exact in binary floating point as well, so nothing is
lost).  `batchNormalization` records the `axis` and `mode` arguments; the
layer at source line 75 passes no `mode`, whose Keras 1.x default is 0. -/
inductive Layer
  | zeroPadding2D (pad_rows pad_cols : Nat)
  | batchNormalization (axis : Nat) (mode : Nat) (name : Option String)
  | convolution2D (nb_filter nb_row nb_col : Nat) (border_mode : String) (name : Option String)
  | elu
  | maxPooling2D (pool_rows pool_cols stride_rows stride_cols : Nat) (name : Option String)
  | dropout (p : ℚ) (name : Option String)
  | permute (d1 d2 d3 : Nat)
  | reshape (r1 r2 : Nat)
  | gru (output_dim : Nat) (return_sequences : Bool) (name : Option String)
  | dense (output_dim : Nat) (activation : String) (name : Option String)
deriving DecidableEq

/-- Input shape selected from the dim ordering (source lines 50-53). -/
def input_shape (dim_ordering : String) : List Nat :=
  if dim_ordering = "th" then [1, 96, 1366] else [96, 1366, 1]

/-- Channel axis index (source lines 64-71). -/
def channel_axis (dim_ordering : String) : Nat :=
  if dim_ordering = "th" then 1 else 3

/-- Frequency axis index (source lines 64-71); computed by the source but
never used afterwards. -/
def freq_axis (dim_ordering : String) : Nat :=
  if dim_ordering = "th" then 2 else 1

/-- Time axis index (source lines 64-71). -/
def time_axis (dim_ordering : String) : Nat :=
  if dim_ordering = "th" then 3 else 2

/-- The chain of layer calls applied to the input tensor, in source order
(source lines 74-114).  The `Permute` step is emitted only under the `"th"`
dim ordering (source lines 106-107). -/
def AudioConvRNN_layers (dim_ordering : String) : List Layer :=
  [Layer.zeroPadding2D 0 37,
   Layer.batchNormalization (time_axis dim_ordering) 0 (some "bn_0_freq"),
   Layer.convolution2D 64 3 3 "same" (some "conv1"),
   Layer.batchNormalization (channel_axis dim_ordering) 2 (some "bn1"),
   Layer.elu,
   Layer.maxPooling2D 2 2 2 2 (some "pool1"),
   Layer.dropout (1/2) (some "dropout1"),
   Layer.convolution2D 128 3 3 "same" (some "conv2"),
   Layer.batchNormalization (channel_axis dim_ordering) 2 (some "bn2"),
   Layer.elu,
   Layer.maxPooling2D 3 3 3 3 (some "pool2"),
   Layer.dropout (1/2) (some "dropout2"),
   Layer.convolution2D 128 3 3 "same" (some "conv3"),
   Layer.batchNormalization (channel_axis dim_ordering) 2 (some "bn3"),
   Layer.elu,
   Layer.maxPooling2D 4 4 4 4 (some "pool3"),
   Layer.dropout (1/2) (some "dropout3"),
   Layer.convolution2D 128 3 3 "same" (some "conv4"),
   Layer.batchNormalization (channel_axis dim_ordering) 2 (some "bn4"),
   Layer.elu,
   Layer.maxPooling2D 4 4 4 4 (some "pool4"),
   Layer.dropout (1/2) (some "dropout4")]
  ++ (if dim_ordering = "th" then [Layer.permute 3 1 2] else [])
  ++ [Layer.reshape 15 128,
      Layer.gru 32 true (some "gru1"),
      Layer.gru 32 false (some "gru2"),
      Layer.dropout (3/10) none,
      Layer.dense 50 "sigmoid" (some "output")]

/-- A caller-supplied tensor: an identifier plus whether `K.is_keras_tensor`
holds of it (i.e. whether it is a graph-native symbolic tensor). -/
structure Tensor where
  id : Nat
  is_keras_tensor : Bool
deriving DecidableEq

/-- The input node of the built model: a fresh placeholder
`Input(shape=input_shape)`, an input wrapping a raw tensor
`Input(tensor=input_tensor, shape=input_shape)`, or the caller's symbolic
tensor used directly. -/
inductive InputNode
  | fresh (shape : List Nat)
  | wrapped (tensor_id : Nat) (shape : List Nat)
  | direct (tensor_id : Nat)
deriving DecidableEq

/-- Selection of the model input `melgram_input` (source lines 55-61). -/
def melgram_input (dim_ordering : String) (input_tensor : Option Tensor) : InputNode :=
  match input_tensor with
  | none => InputNode.fresh (input_shape dim_ordering)
  | some t =>
    if ¬ t.is_keras_tensor then InputNode.wrapped t.id (input_shape dim_ordering)
    else InputNode.direct t.id

/-- The constructed Keras model `Model(melgram_input, x)` (source line 117):
its input node and the chain of layers from input to output. -/
structure KModel where
  input : InputNode
  layers : List Layer
deriving DecidableEq

/-- The Python values taking part in the comparison at source line 122: the
string literal and the module attribute `K.image_dim_ordering`, which is a
function object (the source omits the call parentheses there). -/
inductive PyVal
  | str (s : String)
  | func (name : String)
deriving DecidableEq

/-- Python equality on these values: strings compare by content, function
objects by identity, and a function object never equals a string. -/
def pyEq : PyVal → PyVal → Bool
  | PyVal.str a, PyVal.str b => a = b
  | PyVal.func a, PyVal.func b => a = b
  | _, _ => false

/-- The attribute `K.image_dim_ordering` as it appears (uncalled) at source
line 122. -/
def K_image_dim_ordering_attr : PyVal := PyVal.func "image_dim_ordering"

/-- Outcome of a call to the builder: one of the two raises, a model returned
with random initialization, or a model returned after `get_file` fetched the
weights file (cached filename, URL, cache subdirectory) and
`model.load_weights` loaded it. -/
inductive BuildResult
  | valueError (msg : String)
  | runtimeError (msg : String)
  | model (m : KModel)
  | loadedModel (m : KModel) (fname url cache_subdir : String)
deriving DecidableEq

/-- The builder `AudioConvRNN(weights, input_tensor)` (source lines 20-135),
with the process-wide configuration made an explicit argument.  `weights` is
embedded as `Option String`: `none` is Python `None`, `some s` any string
value.  Control flow follows the source line by line: the `weights`
validation (lines 44-47), input shape (50-53), input selection (55-61), the
layer chain (63-114), the model (117), the early return for `weights is None`
(118-119), the (inoperative) dim-ordering check (122-124), and the
backend-keyed download (125-135). -/
def AudioConvRNN (cfg : KerasConfig) (weights : Option String)
    (input_tensor : Option Tensor) : BuildResult :=
  if weights ≠ some "msd" ∧ weights ≠ none then
    BuildResult.valueError
      "The weights argument should be either None (random initialization) or msd (pre-training on Million Song Dataset)."
  else
    let model : KModel :=
      { input := melgram_input cfg.image_dim_ordering input_tensor,
        layers := AudioConvRNN_layers cfg.image_dim_ordering }
    match weights with
    | none => BuildResult.model model
    | some _ =>
      if pyEq K_image_dim_ordering_attr (PyVal.str "tf") then
        BuildResult.runtimeError
          "Please set image_dim_ordering == th. You can set it at ~/.keras/keras.json"
      else if cfg.backend = "theano" then
        BuildResult.loadedModel model "rnn_weights_theano.h5" TH_WEIGHTS_PATH "models"
      else
        BuildResult.loadedModel model "rnn_weights_tensorflow.h5" TF_WEIGHTS_PATH "models"

/-- The declared default of the `weights` parameter (source line 20). -/
def AudioConvRNN_default_weights : Option String := some "msd"

/-- The declared default of the `input_tensor` parameter (source line 20). -/
def AudioConvRNN_default_input_tensor : Option Tensor := none

/-- A call with no explicit arguments: both parameters take their declared
defaults. -/
def AudioConvRNN_noargs (cfg : KerasConfig) : BuildResult :=
  AudioConvRNN cfg AudioConvRNN_default_weights AudioConvRNN_default_input_tensor

/-- The model carried by a non-raising result, if any. -/
def builtModel : BuildResult → Option KModel
  | BuildResult.model m => some m
  | BuildResult.loadedModel m _ _ _ => some m
  | _ => none

/-- The input shape this builder declared for the model input, when it
created one (`none` when the caller's symbolic tensor was used directly, in
which case no shape is declared by this code). -/
def InputNode.declaredShape : InputNode → Option (List Nat)
  | InputNode.fresh sh => some sh
  | InputNode.wrapped _ sh => some sh
  | InputNode.direct _ => none

/-- The `name` argument a layer call passed, if any. -/
def layerName : Layer → Option String
  | Layer.batchNormalization _ _ n => n
  | Layer.convolution2D _ _ _ _ n => n
  | Layer.maxPooling2D _ _ _ _ n => n
  | Layer.dropout _ n => n
  | Layer.gru _ _ n => n
  | Layer.dense _ _ n => n
  | _ => none

/-- The names carried by the named layers of a chain, in order. -/
def layerNames (ls : List Layer) : List String := ls.filterMap layerName

/-- The names the source gives its layers, in construction order. -/
def AudioConvRNN_layer_names : List String :=
  ["bn_0_freq",
   "conv1", "bn1", "pool1", "dropout1",
   "conv2", "bn2", "pool2", "dropout2",
   "conv3", "bn3", "pool3", "dropout3",
   "conv4", "bn4", "pool4", "dropout4",
   "gru1", "gru2", "output"]

/-- Parameters of the convolution layers of a chain: filter count, kernel
rows, kernel cols, border mode. -/
def convParams (ls : List Layer) : List (Nat × Nat × Nat × String) :=
  ls.filterMap fun l => match l with
    | Layer.convolution2D f r c bm _ => some (f, r, c, bm)
    | _ => none

/-- Parameters of the max-pooling layers of a chain: pool window and
strides. -/
def poolParams (ls : List Layer) : List (Nat × Nat × Nat × Nat) :=
  ls.filterMap fun l => match l with
    | Layer.maxPooling2D pr pc sr sc _ => some (pr, pc, sr, sc)
    | _ => none

/-- Dropout rates of a chain, in order. -/
def dropoutRates (ls : List Layer) : List ℚ :=
  ls.filterMap fun l => match l with
    | Layer.dropout p _ => some p
    | _ => none

/-- Parameters of the recurrent layers of a chain: unit width and whether the
full output sequence is returned. -/
def gruParams (ls : List Layer) : List (Nat × Bool) :=
  ls.filterMap fun l => match l with
    | Layer.gru u rs _ => some (u, rs)
    | _ => none

/-- Parameters of the dense layers of a chain: width and activation. -/
def denseParams (ls : List Layer) : List (Nat × String) :=
  ls.filterMap fun l => match l with
    | Layer.dense u a _ => some (u, a)
    | _ => none

/-- Forget the layout-dependent data of a layer: the axis argument of a batch
normalization is zeroed and the permute step dropped; everything else is kept
as is. -/
def eraseLayoutData : Layer → Option Layer
  | Layer.batchNormalization _ m n => some (Layer.batchNormalization 0 m n)
  | Layer.permute _ _ _ => none
  | l => some l

/-- Unfolding of the builder when `weights` is `None`. -/
theorem AudioConvRNN_none_eq (cfg : KerasConfig) (input_tensor : Option Tensor) :
    AudioConvRNN cfg none input_tensor =
      BuildResult.model
        ⟨melgram_input cfg.image_dim_ordering input_tensor,
         AudioConvRNN_layers cfg.image_dim_ordering⟩ := by
  simp [AudioConvRNN]

/-- Unfolding of the builder when `weights` is the string `msd`: the
dim-ordering guard at source line 122 is inoperative, so the result is always
a download keyed on the backend. -/
theorem AudioConvRNN_msd_eq (cfg : KerasConfig) (input_tensor : Option Tensor) :
    AudioConvRNN cfg (some "msd") input_tensor =
      (if cfg.backend = "theano" then
        BuildResult.loadedModel
          ⟨melgram_input cfg.image_dim_ordering input_tensor,
           AudioConvRNN_layers cfg.image_dim_ordering⟩
          "rnn_weights_theano.h5" TH_WEIGHTS_PATH "models"
      else
        BuildResult.loadedModel
          ⟨melgram_input cfg.image_dim_ordering input_tensor,
           AudioConvRNN_layers cfg.image_dim_ordering⟩
          "rnn_weights_tensorflow.h5" TF_WEIGHTS_PATH "models") := by
  by_cases hb : cfg.backend = "theano" <;>
    simp [AudioConvRNN, pyEq, K_image_dim_ordering_attr, hb]

/-- Unfolding of the builder when `weights` is any string other than `msd`:
the ValueError is raised before anything else. -/
theorem AudioConvRNN_invalid_eq (cfg : KerasConfig) (input_tensor : Option Tensor)
    (s : String) (hs : s ≠ "msd") :
    AudioConvRNN cfg (some s) input_tensor =
      BuildResult.valueError
        "The weights argument should be either None (random initialization) or msd (pre-training on Million Song Dataset)." := by
  simp [AudioConvRNN, hs]

/-- The names of the layer chain do not depend on the dim ordering. -/
theorem layerNames_AudioConvRNN_layers (dim_ordering : String) :
    layerNames (AudioConvRNN_layers dim_ordering) = AudioConvRNN_layer_names := by
  by_cases hd : dim_ordering = "th"
  · subst hd; decide
  · simp only [AudioConvRNN_layers, channel_axis, freq_axis, time_axis, if_neg hd]
    decide

/-- C1: the claim says a call with `weights = 'msd'` under the `"tf"` dim
ordering raises a RuntimeError before any network call.  The code does not:
source line 122 compares the function object `K.image_dim_ordering` (not the
result of calling it) to the string `'tf'`, a comparison that is always
false, so the build falls through to the download step.  Evaluated at the
failing input, the builder returns a model with a weights download attempted
instead of a RuntimeError, contradicting both the claim and the docstring at
source lines 25-27. -/
theorem C1_no_runtime_error_under_tf :
    AudioConvRNN ⟨"tf", "tensorflow"⟩ (some "msd") none =
      BuildResult.loadedModel
        ⟨InputNode.fresh [96, 1366, 1], AudioConvRNN_layers "tf"⟩
        "rnn_weights_tensorflow.h5" TF_WEIGHTS_PATH "models" := rfl

/-- C2: for every `weights` value other than the two accepted sentinels
(`some "msd"` and `none`), the builder raises the ValueError immediately and
returns no graph. -/
theorem C2_invalid_weights_value_error (cfg : KerasConfig)
    (input_tensor : Option Tensor) (s : String) (hs : s ≠ "msd") :
    AudioConvRNN cfg (some s) input_tensor =
      BuildResult.valueError
        "The weights argument should be either None (random initialization) or msd (pre-training on Million Song Dataset)." := by
  simp [AudioConvRNN, hs]

/-- Witness for C2 at the concrete invalid value `imagenet`. -/
theorem C2_invalid_weights_value_error_witness :
    AudioConvRNN ⟨"th", "theano"⟩ (some "imagenet") none =
      BuildResult.valueError
        "The weights argument should be either None (random initialization) or msd (pre-training on Million Song Dataset)." :=
  C2_invalid_weights_value_error ⟨"th", "theano"⟩ none "imagenet" (by decide)

/-- C3: with `weights = None` the builder returns a model; its terminal layer
is the 50-unit sigmoid dense projection, and whenever the builder declared an
input shape it is `[1, 96, 1366]` under the `"th"` (channels-first) ordering
and `[96, 1366, 1]` otherwise (channels-last). -/
theorem C3_none_shape_and_output (cfg : KerasConfig) (input_tensor : Option Tensor) :
    ∃ m : KModel,
      AudioConvRNN cfg none input_tensor = BuildResult.model m ∧
      m.layers.getLast? = some (Layer.dense 50 "sigmoid" (some "output")) ∧
      m.input.declaredShape.all
        (fun sh =>
          sh = if cfg.image_dim_ordering = "th" then [1, 96, 1366] else [96, 1366, 1]) = true := by
  refine ⟨_, AudioConvRNN_none_eq cfg input_tensor, ?_, ?_⟩
  · by_cases hd : cfg.image_dim_ordering = "th" <;>
      simp [AudioConvRNN_layers, channel_axis, freq_axis, time_axis, hd]
  · rcases input_tensor with _ | t
    · simp [melgram_input, InputNode.declaredShape, input_shape]
    · rcases ht : t.is_keras_tensor <;>
        simp [melgram_input, ht, InputNode.declaredShape, input_shape]

/-- C4: with `weights = 'msd'` under the supported `"th"` ordering, exactly
one of the two fixed URLs is selected, keyed solely on the backend — the
Theano URL with cached filename `rnn_weights_theano.h5` when the backend is
`theano`, otherwise the TensorFlow URL with cached filename
`rnn_weights_tensorflow.h5` — and the populated model is returned. -/
theorem C4_url_selection (backend : String) (input_tensor : Option Tensor) :
    ∃ m : KModel,
      AudioConvRNN ⟨"th", backend⟩ (some "msd") input_tensor =
        BuildResult.loadedModel m
          (if backend = "theano" then "rnn_weights_theano.h5"
           else "rnn_weights_tensorflow.h5")
          (if backend = "theano" then TH_WEIGHTS_PATH else TF_WEIGHTS_PATH)
          "models" := by
  refine ⟨⟨melgram_input "th" input_tensor, AudioConvRNN_layers "th"⟩, ?_⟩
  have h := AudioConvRNN_msd_eq ⟨"th", backend⟩ input_tensor
  by_cases hb : backend = "theano" <;> simp [hb] at h <;> simp [h, hb]

/-- C5: the layer block parameters — convolution filter counts 64/128/128/128
with 3x3 same-padding kernels, pooling window/stride pairs 2/3/4/4, dropout
rates 0.5 in the four conv blocks and 0.3 before the output, recurrent unit
widths 32/32, final dense width 50 — are identical for every dim ordering;
after erasing the batch-normalization axis argument and the permute step, the
whole chain is identical to the channels-first one. -/
theorem C5_parameters_layout_invariant (dim_ordering : String) :
    convParams (AudioConvRNN_layers dim_ordering) =
      [(64, 3, 3, "same"), (128, 3, 3, "same"), (128, 3, 3, "same"), (128, 3, 3, "same")] ∧
    poolParams (AudioConvRNN_layers dim_ordering) =
      [(2, 2, 2, 2), (3, 3, 3, 3), (4, 4, 4, 4), (4, 4, 4, 4)] ∧
    dropoutRates (AudioConvRNN_layers dim_ordering) =
      [1/2, 1/2, 1/2, 1/2, 3/10] ∧
    gruParams (AudioConvRNN_layers dim_ordering) = [(32, true), (32, false)] ∧
    denseParams (AudioConvRNN_layers dim_ordering) = [(50, "sigmoid")] ∧
    (AudioConvRNN_layers dim_ordering).filterMap eraseLayoutData =
      (AudioConvRNN_layers "th").filterMap eraseLayoutData := by
  by_cases hd : dim_ordering = "th"
  · subst hd; exact ⟨rfl, rfl, rfl, rfl, rfl, rfl⟩
  · simp only [AudioConvRNN_layers, channel_axis, freq_axis, time_axis, if_neg hd]
    exact ⟨rfl, rfl, rfl, rfl, rfl, rfl⟩

/-- C6: for every valid call, the model input is determined by
`input_tensor` exactly as the claim states: a symbolic tensor is used
directly, a non-symbolic tensor is wrapped in a new input of the fixed
shape, and absence yields a fresh placeholder of the fixed shape. -/
theorem C6_input_tensor_handling (cfg : KerasConfig) (w : Option String)
    (input_tensor : Option Tensor) (hw : w = none ∨ w = some "msd") :
    (builtModel (AudioConvRNN cfg w input_tensor)).map KModel.input =
      some (match input_tensor with
            | none => InputNode.fresh (input_shape cfg.image_dim_ordering)
            | some t =>
              if t.is_keras_tensor then InputNode.direct t.id
              else InputNode.wrapped t.id (input_shape cfg.image_dim_ordering)) := by
  have hin : melgram_input cfg.image_dim_ordering input_tensor =
      (match input_tensor with
       | none => InputNode.fresh (input_shape cfg.image_dim_ordering)
       | some t =>
         if t.is_keras_tensor then InputNode.direct t.id
         else InputNode.wrapped t.id (input_shape cfg.image_dim_ordering)) := by
    rcases input_tensor with _ | t
    · rfl
    · rcases ht : t.is_keras_tensor <;> simp [melgram_input, ht]
  rcases hw with hw | hw
  · subst hw
    rw [AudioConvRNN_none_eq]
    simp [builtModel, hin]
  · subst hw
    rw [AudioConvRNN_msd_eq]
    by_cases hb : cfg.backend = "theano" <;> simp [hb, builtModel, hin]

/-- Witness for C6: under channels-first ordering with no weights, a
caller-supplied symbolic tensor with identifier 7 becomes the model input
directly. -/
theorem C6_input_tensor_handling_witness :
    (builtModel (AudioConvRNN ⟨"th", "theano"⟩ none (some ⟨7, true⟩))).map KModel.input =
      some (InputNode.direct 7) := by
  have h := C6_input_tensor_handling ⟨"th", "theano"⟩ none (some ⟨7, true⟩) (Or.inl rfl)
  simpa using h

/-- C7: for every dim ordering, construction begins with a symmetric zero
padding of 37 on the time axis (and 0 on the frequency axis), followed by a
batch normalization whose axis argument is the time-axis index of the active
convention (3 under `"th"`, 2 otherwise), and only then the first
convolutional block. -/
theorem C7_input_block (dim_ordering : String) :
    (AudioConvRNN_layers dim_ordering).take 2 =
      [Layer.zeroPadding2D 0 37,
       Layer.batchNormalization (if dim_ordering = "th" then 3 else 2) 0 (some "bn_0_freq")] ∧
    (AudioConvRNN_layers dim_ordering)[2]? =
      some (Layer.convolution2D 64 3 3 "same" (some "conv1")) := by
  by_cases hd : dim_ordering = "th"
  · subst hd; exact ⟨rfl, rfl⟩
  · simp only [AudioConvRNN_layers, channel_axis, freq_axis, time_axis, if_neg hd]
    exact ⟨rfl, rfl⟩

/-- C8: after the 22 layers of the input block and the four convolutional
blocks, the chain continues with the permutation (3,1,2) exactly when the
channels-first ordering is active, then the reshape to 15 time steps of 128
features, then the two 32-unit GRU layers — the first returning the full
sequence, the second only the final step — before the final dropout and
dense output. -/
theorem C8_reshape_and_gru (dim_ordering : String) :
    (AudioConvRNN_layers dim_ordering).drop 22 =
      (if dim_ordering = "th" then [Layer.permute 3 1 2] else []) ++
      [Layer.reshape 15 128,
       Layer.gru 32 true (some "gru1"),
       Layer.gru 32 false (some "gru2"),
       Layer.dropout (3/10) none,
       Layer.dense 50 "sigmoid" (some "output")] := by
  by_cases hd : dim_ordering = "th"
  · subst hd; rfl
  · simp only [AudioConvRNN_layers, channel_axis, freq_axis, time_axis, if_neg hd]
    rfl

/-- C9: the declared default of `weights` is the pretrained sentinel `msd`,
so a call with no arguments always takes the weight-loading path — for every
configuration it returns a model produced through a `get_file` download into
the `models` cache subdirectory, never the plain randomly-initialized
model. -/
theorem C9_default_weights_loads (cfg : KerasConfig) :
    AudioConvRNN_default_weights = some "msd" ∧
    ∃ m fname url, AudioConvRNN_noargs cfg = BuildResult.loadedModel m fname url "models" := by
  refine ⟨rfl, ?_⟩
  have h := AudioConvRNN_msd_eq cfg none
  by_cases hb : cfg.backend = "theano" <;> simp [hb] at h <;>
    exact ⟨_, _, _, by rw [AudioConvRNN_noargs, AudioConvRNN_default_weights,
      AudioConvRNN_default_input_tensor, h]⟩

/-- C10: every model the builder returns, for every configuration, weights
argument and input tensor, carries the same fixed layer names in the same
order — the naming contract that name-matched weight loading relies on. -/
theorem C10_fixed_layer_names (cfg : KerasConfig) (w : Option String)
    (input_tensor : Option Tensor) :
    (builtModel (AudioConvRNN cfg w input_tensor)).all
      (fun m => layerNames m.layers == AudioConvRNN_layer_names) = true := by
  rcases w with _ | s
  · rw [AudioConvRNN_none_eq]
    simp [builtModel, Option.all, layerNames_AudioConvRNN_layers]
  · by_cases hs : s = "msd"
    · subst hs
      rw [AudioConvRNN_msd_eq]
      by_cases hb : cfg.backend = "theano" <;>
        simp [hb, builtModel, Option.all, layerNames_AudioConvRNN_layers]
    · rw [AudioConvRNN_invalid_eq cfg input_tensor s hs]
      rfl
